import Mathlib

/-!
Verification development for the pyinfra facts API (`pyinfra/api/facts.py`).

The Python module is shallowly embedded: each function of the source file is
translated into an executable Lean definition over explicit state passing.
Python exceptions are modelled with `Except`; Python dictionaries are modelled
as association lists with python `dict` assignment/lookup/pop semantics;
concurrency primitives (the per-host `BoundedSemaphore` fact lock and the
gevent greenlet pool) are modelled by a single-task sequential semantics in
which lock acquisition is a no-op and hosts are processed in a fixed
completion order.
-/

set_option autoImplicit false

namespace PyinfraFacts

/-- Python values as they occur in fact data, kwargs and cache entries. -/
inductive Value where
  | none : Value
  | bool (b : Bool) : Value
  | int (n : Int) : Value
  | str (s : String) : Value
  | list (elems : List Value) : Value
  | dict (entries : List (String × Value)) : Value

/-- Python truthiness for `Value` (used by `dict.get(...)` results that feed
boolean contexts such as `ignore_errors`). -/
def valueTruthy : Value → Bool
  | .none => false
  | .bool b => b
  | .int n => decide (n ≠ 0)
  | .str s => !s.isEmpty
  | .list l => !l.isEmpty
  | .dict d => !d.isEmpty

/-- Python truthiness for an optional string (`None` and `""` are falsy). -/
def truthyOptStr : Option String → Bool
  | Option.none => false
  | Option.some s => !s.isEmpty

/-- Keyword-argument dictionaries (`kwargs`, `current_op_global_kwargs`, ...). -/
abbrev Kwargs := List (String × Value)

/-- Python `d[k]` lookup on an association list: first matching key wins
(python dict keys are unique, so first = only). -/
def dictLookup {κ : Type} {α : Type} [DecidableEq κ] : List (κ × α) → κ → Option α
  | [], _ => Option.none
  | kv :: rest, k => if kv.1 = k then Option.some kv.2 else dictLookup rest k

/-- Python `d[k] = v` assignment: replace the value in place if the key is
present, otherwise append the pair at the end (python dicts preserve
insertion order). -/
def dictInsert {κ : Type} {α : Type} [DecidableEq κ] : List (κ × α) → κ → α → List (κ × α)
  | [], k, v => [(k, v)]
  | kv :: rest, k, v => if kv.1 = k then (k, v) :: rest else kv :: dictInsert rest k v

/-- Python `d.pop(k, None)`: remove the entry for `k` if present.  On the
unique-key lists reachable through `dictInsert` this coincides with python
`pop`; removal by filtering keeps the lemmas unconditional. -/
def dictRemove {κ : Type} {α : Type} [DecidableEq κ] (d : List (κ × α)) (k : κ) : List (κ × α) :=
  d.filter (fun kv => !(decide (kv.1 = k)))

/-- Python `d1.update(d2)`: assign every pair of `d2` into `d1` in order. -/
def dictUpdate {κ : Type} {α : Type} [DecidableEq κ] (d1 d2 : List (κ × α)) : List (κ × α) :=
  d2.foldl (fun acc kv => dictInsert acc kv.1 kv.2) d1

mutual

/-- Decidable equality on `Value`, written out by hand because the automatic
`DecidableEq` derivation does not handle the nested `List` occurrences. -/
def Value.decEq : (a b : Value) → Decidable (a = b)
  | .none, .none => isTrue rfl
  | .none, .bool _ => isFalse (fun h => Value.noConfusion h)
  | .none, .int _ => isFalse (fun h => Value.noConfusion h)
  | .none, .str _ => isFalse (fun h => Value.noConfusion h)
  | .none, .list _ => isFalse (fun h => Value.noConfusion h)
  | .none, .dict _ => isFalse (fun h => Value.noConfusion h)
  | .bool _, .none => isFalse (fun h => Value.noConfusion h)
  | .bool a, .bool b =>
      if h : a = b then isTrue (by rw [h])
      else isFalse (fun he => by simp only [Value.bool.injEq] at he; exact h he)
  | .bool _, .int _ => isFalse (fun h => Value.noConfusion h)
  | .bool _, .str _ => isFalse (fun h => Value.noConfusion h)
  | .bool _, .list _ => isFalse (fun h => Value.noConfusion h)
  | .bool _, .dict _ => isFalse (fun h => Value.noConfusion h)
  | .int _, .none => isFalse (fun h => Value.noConfusion h)
  | .int _, .bool _ => isFalse (fun h => Value.noConfusion h)
  | .int a, .int b =>
      if h : a = b then isTrue (by rw [h])
      else isFalse (fun he => by simp only [Value.int.injEq] at he; exact h he)
  | .int _, .str _ => isFalse (fun h => Value.noConfusion h)
  | .int _, .list _ => isFalse (fun h => Value.noConfusion h)
  | .int _, .dict _ => isFalse (fun h => Value.noConfusion h)
  | .str _, .none => isFalse (fun h => Value.noConfusion h)
  | .str _, .bool _ => isFalse (fun h => Value.noConfusion h)
  | .str _, .int _ => isFalse (fun h => Value.noConfusion h)
  | .str a, .str b =>
      if h : a = b then isTrue (by rw [h])
      else isFalse (fun he => by simp only [Value.str.injEq] at he; exact h he)
  | .str _, .list _ => isFalse (fun h => Value.noConfusion h)
  | .str _, .dict _ => isFalse (fun h => Value.noConfusion h)
  | .list _, .none => isFalse (fun h => Value.noConfusion h)
  | .list _, .bool _ => isFalse (fun h => Value.noConfusion h)
  | .list _, .int _ => isFalse (fun h => Value.noConfusion h)
  | .list _, .str _ => isFalse (fun h => Value.noConfusion h)
  | .list a, .list b =>
      match Value.decEqList a b with
      | isTrue h => isTrue (by rw [h])
      | isFalse h => isFalse (fun he => by simp only [Value.list.injEq] at he; exact h he)
  | .list _, .dict _ => isFalse (fun h => Value.noConfusion h)
  | .dict _, .none => isFalse (fun h => Value.noConfusion h)
  | .dict _, .bool _ => isFalse (fun h => Value.noConfusion h)
  | .dict _, .int _ => isFalse (fun h => Value.noConfusion h)
  | .dict _, .str _ => isFalse (fun h => Value.noConfusion h)
  | .dict _, .list _ => isFalse (fun h => Value.noConfusion h)
  | .dict a, .dict b =>
      match Value.decEqEntries a b with
      | isTrue h => isTrue (by rw [h])
      | isFalse h => isFalse (fun he => by simp only [Value.dict.injEq] at he; exact h he)

/-- Decidable equality on lists of values (for `Value.list` payloads). -/
def Value.decEqList : (a b : List Value) → Decidable (a = b)
  | [], [] => isTrue rfl
  | [], _ :: _ => isFalse (fun h => List.noConfusion h)
  | _ :: _, [] => isFalse (fun h => List.noConfusion h)
  | x :: xs, y :: ys =>
      match Value.decEq x y with
      | isFalse h1 => isFalse (fun he => by simp only [List.cons.injEq] at he; exact h1 he.1)
      | isTrue h1 =>
          match Value.decEqList xs ys with
          | isTrue h2 => isTrue (by rw [h1, h2])
          | isFalse h2 => isFalse (fun he => by simp only [List.cons.injEq] at he; exact h2 he.2)

/-- Decidable equality on string-keyed entry lists (for `Value.dict` payloads). -/
def Value.decEqEntries : (a b : List (String × Value)) → Decidable (a = b)
  | [], [] => isTrue rfl
  | [], _ :: _ => isFalse (fun h => List.noConfusion h)
  | _ :: _, [] => isFalse (fun h => List.noConfusion h)
  | (k1, v1) :: xs, (k2, v2) :: ys =>
      if hk : k1 = k2 then
        match Value.decEq v1 v2 with
        | isFalse h1 =>
            isFalse (fun he => by
              simp only [List.cons.injEq, Prod.mk.injEq] at he; exact h1 he.1.2)
        | isTrue h1 =>
            match Value.decEqEntries xs ys with
            | isTrue h2 => isTrue (by rw [hk, h1, h2])
            | isFalse h2 =>
                isFalse (fun he => by
                  simp only [List.cons.injEq, Prod.mk.injEq] at he; exact h2 he.2)
      else
        isFalse (fun he => by
          simp only [List.cons.injEq, Prod.mk.injEq] at he; exact hk he.1.1)

end

instance : DecidableEq Value := Value.decEq

/-- The three transport-level error kinds caught by `_get_fact`
(`socket.timeout`, `socket.error`, `paramiko.SSHException`). -/
inductive TransportErr where
  | timeout : TransportErr
  | socket : TransportErr
  | ssh : TransportErr
  deriving DecidableEq, Repr

/-- Python exceptions that can escape the modelled functions. -/
inductive PyErr where
  /-- `UnboundLocalError`: a local variable referenced before assignment. -/
  | unboundLocal (v : String) : PyErr
  /-- `AttributeError`: attribute access on an object lacking it. -/
  | attributeError (attr : String) : PyErr
  /-- `KeyError`: dictionary lookup of a missing key (`FACTS[name]`). -/
  | keyError (k : String) : PyErr
  /-- Model artifact: the recursion-depth fuel ran out. -/
  | outOfFuel : PyErr
  deriving DecidableEq, Repr

/-- Resolved execution arguments handed to the transport.

Modelled from the spec: `pop_global_arguments` (pyinfra.api.arguments, not in
src) merges request-local overrides with host-scoped defaults and global
configuration defaults, producing a bag in which the transport-affecting keys
(`timeout`, `sudo_user`, `su_user`, `shell_executable`) are always present;
`_get_fact` indexes into it unconditionally. -/
structure ExecutorKwargs where
  timeout : Nat
  sudo_user : Option String
  su_user : Option String
  shell_executable : Option String
  deriving DecidableEq, Repr

/-- The command value handed to `host.run_shell_command`: either the plain
`fact.command` rendering (possibly `None`) or the `StringCommand` token list
built around a `requires_command` probe. -/
inductive Cmd where
  | plain (s : Option String) : Cmd
  | tokens (ts : List String) : Cmd
  deriving DecidableEq, Repr

/-- Cache fingerprint contents: `make_hash((name, kwargs, executor_kwargs))`.
`make_hash` (pyinfra.api.util, not in src) is modelled from the spec as a
deterministic, collision-free fingerprint, i.e. as the hashed tuple itself. -/
abbrev FactHash := String × Option Kwargs × Kwargs

/-- Anchored literal matching over character lists (the `^...` regex forms
below only need literal-prefix tests). -/
def charsPrefix : List Char → List Char → Bool
  | [], _ => true
  | _ :: _, [] => false
  | p :: ps, c :: cs => p == c && charsPrefix ps cs

/-- `re.match(SUDO_REGEX, line)` with `SUDO_REGEX = r'^sudo: unknown user:'`:
an anchored prefix match on the first stderr line. -/
def sudo_unknown_user_match (s : String) : Bool :=
  charsPrefix "sudo: unknown user:".toList s.toList

/-- `re.match(r'^su: unknown login', line)`. -/
def su_unknown_login_match (s : String) : Bool :=
  charsPrefix "su: unknown login".toList s.toList

/-- `re.match(r'^su: user .+ does not exist', line)`: the line starts with
`"su: user "`, followed by at least one non-newline character (`.` does not
match a newline), followed by `" does not exist"`. -/
def su_user_missing_match (s : String) : Bool :=
  let cs := s.toList
  let pre := "su: user ".toList
  charsPrefix pre cs &&
    (let rest := cs.drop pre.length
     (List.range (rest.length + 1)).any (fun i =>
       decide (1 ≤ i) && !((rest.take i).contains '\n')
         && charsPrefix " does not exist".toList (rest.drop i)))

/-- The two `su` pattern checks of `SU_REGEXES`, any of which may match. -/
def su_regexes_match (s : String) : Bool :=
  su_user_missing_match s || su_unknown_login_match s

/-- A fact's `command` / `requires_command` class attribute: `None`, a literal
command string, or a callable from the rendered keyword arguments to a
command string (`_make_command` checks `callable(...)` at runtime). -/
inductive CommandAttr where
  | noneAttr : CommandAttr
  | lit (s : String) : CommandAttr
  | fn (f : Kwargs → String) : CommandAttr

/-- `_make_command(command_attribute, host_args)`: call the attribute when it
is callable, otherwise return it unchanged (`None` stays `None`). -/
def _make_command (command_attribute : CommandAttr) (host_args : Kwargs) : Option String :=
  match command_attribute with
  | .fn f => Option.some (f host_args)
  | .lit s => Option.some s
  | .noneAttr => Option.none

/-- The `StringCommand('!', 'command', '-v', requires_command, '>/dev/null',
'||', command)` token list built in `_get_fact`. -/
def wrapRequires (requires_command command : String) : List String :=
  ["!", "command", "-v", requires_command, ">/dev/null", "||", command]

/-- A primary fact definition (a concrete `FactBase` subclass): its registry
name, command builder, optional `requires_command` probe, optional shell
override, `default()` factory result, and `process` output parser. -/
structure Fact where
  name : String
  command : CommandAttr
  requires_command : CommandAttr
  shell_executable : Option String
  default : Value
  process : List String → Value

/-- A derived fact (a concrete `ShortFactBase` subclass): the primary fact it
wraps plus its `process_data` transform. -/
structure ShortFact where
  fact : Fact
  process_data : Value → Value

/-- A registered fact class: primary or derived. -/
inductive FactOrShort where
  | fact (f : Fact) : FactOrShort
  | short (sf : ShortFact) : FactOrShort

/-- The `name_or_cls` argument of `get_fact` / `_get_fact`: a registry name or
a fact class passed directly. -/
inductive NameOrCls where
  | name (n : String) : NameOrCls
  | cls (c : FactOrShort) : NameOrCls

/-- `split_combined_output` (pyinfra.connectors.util, not in src).

Modelled from the spec: the combined output is an ordered sequence of
(stream, line) pairs (`true` = stdout, `false` = stderr) which is split into
separate stdout and stderr sequences preserving relative order within each
stream. -/
def split_combined_output (combined : List (Bool × String)) : List String × List String :=
  ((combined.filter (fun p => p.1)).map (fun p => p.2),
   (combined.filter (fun p => !p.1)).map (fun p => p.2))

/-- The benign-absence reclassification of `_get_fact`: with a failed status
and error output, set status back to true when the first stderr line reports
a missing `sudo` target user (and `sudo_user` was requested) or a missing
`su` target user (and `su_user` was requested).  Empty stderr (the `elif
stderr:` guard) never reclassifies. -/
def reclassify_status (ekw : ExecutorKwargs) (stderr : List String) : Bool :=
  match stderr with
  | [] => false
  | first_line :: _ =>
      (truthyOptStr ekw.sudo_user && sudo_unknown_user_match first_line)
        || (truthyOptStr ekw.su_user && su_regexes_match first_line)

/-- `if fact.shell_executable: executor_kwargs['shell_executable'] = ...`. -/
def apply_shell_override (f : Fact) (ekw : ExecutorKwargs) : ExecutorKwargs :=
  if truthyOptStr f.shell_executable then
    { ekw with shell_executable := f.shell_executable }
  else ekw

/-- Command construction of `_get_fact`: render `fact.command` and
`fact.requires_command` through `_make_command`; when the probe renders
truthy (non-`None`, non-empty) wrap the primary command in the
`StringCommand` token list, otherwise use the primary command as-is. -/
def buildCmd (f : Fact) (host_kwargs : Kwargs) : Cmd :=
  let command := _make_command f.command host_kwargs
  let requires_command := _make_command f.requires_command host_kwargs
  match requires_command with
  | Option.some rc =>
      if rc.isEmpty then Cmd.plain command
      else Cmd.tokens (wrapRequires rc (command.getD ""))
  | Option.none => Cmd.plain command

/-- Per-host mutable state: the fact cache (`host.facts`), the failed flag
(membership in the state's failed-hosts set after `state.fail_hosts({host})`),
and an instrumentation counter of `host.run_shell_command` invocations. -/
structure HostState where
  facts : List (FactHash × Value)
  failed : Bool
  commandCount : Nat

/-- The read-only environment of one host's fact resolution.

* `registry` models the global `FACTS` index;
* `transport` models `host.run_shell_command` (success flag plus combined
  (stream, line) output, or one of the three caught transport errors);
* `current_op_global_kwargs` models `host.current_op_global_kwargs`;
* `config_ignore_errors` models `state.config.IGNORE_ERRORS`;
* `executor_kwargs` — modelled from the spec: the execution arguments
  resolved by `pop_global_arguments` / `_get_executor_kwargs` (the override
  machinery lives outside src/pyinfra/api/facts.py);
* `render_args` — modelled from the spec: the merge of positional args into
  canonical keyword arguments (`inspect.getcallargs`) and the per-host
  template rendering (`get_arg_value`), both outside src. -/
structure Ctx where
  registry : List (String × FactOrShort)
  transport : Cmd → ExecutorKwargs → Except TransportErr (Bool × List (Bool × String))
  current_op_global_kwargs : Option Kwargs
  config_ignore_errors : Bool
  executor_kwargs : ExecutorKwargs
  render_args : Option (List Value) → Kwargs → Kwargs

/-- `(host.current_op_global_kwargs or {}).get('ignore_errors',
state.config.IGNORE_ERRORS)`, used in boolean position. -/
def ignoreErrors (ctx : Ctx) : Bool :=
  match dictLookup (ctx.current_op_global_kwargs.getD []) "ignore_errors" with
  | Option.some v => valueTruthy v
  | Option.none => ctx.config_ignore_errors

/-- The fact-class resolution at the top of `_get_fact`: a class argument is
used directly, a name is looked up in `FACTS` (raising `KeyError` when
absent, as `get_fact_class` would). -/
def resolveFactCls (registry : List (String × FactOrShort)) (name_or_cls : NameOrCls) :
    Except PyErr FactOrShort :=
  match name_or_cls with
  | .cls c => Except.ok c
  | .name n =>
      match dictLookup registry n with
      | Option.some c => Except.ok c
      | Option.none => Except.error (PyErr.keyError n)

/-- The rendered host kwargs used by `_get_fact` for command building. -/
def factHostKwargs (ctx : Ctx) (args : Option (List Value)) (kwargs : Option Kwargs) : Kwargs :=
  ctx.render_args args (kwargs.getD [])

/-- The command `_get_fact` executes for fact `f` with the given call
arguments. -/
def factCommand (ctx : Ctx) (f : Fact) (args : Option (List Value)) (kwargs : Option Kwargs) : Cmd :=
  buildCmd f (factHostKwargs ctx args kwargs)

/-- One resolution request in flight: the entry points of the mutually
recursive trio `get_fact` / `_get_fact` / `get_short_facts`. -/
inductive Entry where
  /-- the public `get_fact` body (lock + cache check, then `_get_fact`) -/
  | locked (name_or_cls : NameOrCls) (args : Option (List Value)) (kwargs : Option Kwargs)
      (apply_failed_hosts : Bool) (fact_hash : Option FactHash) : Entry
  /-- the `_get_fact` body -/
  | inner (name_or_cls : NameOrCls) (args : Option (List Value)) (kwargs : Option Kwargs)
      (apply_failed_hosts : Bool) (fact_hash : Option FactHash) : Entry
  /-- the `get_short_facts` body -/
  | shortFacts (sf : ShortFact) (args : Option (List Value)) : Entry

/-- Single sequential interpreter for the mutually recursive call graph
`get_fact → _get_fact → get_short_facts → get_fact`, structurally recursive
on a fuel bound (the source recursion is unbounded when a derived fact's
registry name resolves to another derived fact).  The per-host
`BoundedSemaphore` fact lock is a no-op in this single-task model.  The
`commandCount` field counts `host.run_shell_command` invocations. -/
def dispatch : Nat → Ctx → Entry → HostState → Except PyErr Value × HostState
  | 0, _, _, hs => (Except.error PyErr.outOfFuel, hs)
  | fuel + 1, ctx, e, hs =>
    match e with
    | .locked name_or_cls args kwargs apply_failed_hosts fact_hash =>
        -- `with host.facts_lock:` — no-op in the sequential model
        match fact_hash with
        | Option.some h =>
            match dictLookup hs.facts h with
            | Option.some v => (Except.ok v, hs)
            | Option.none =>
                dispatch fuel ctx (.inner name_or_cls args kwargs apply_failed_hosts fact_hash) hs
        | Option.none =>
            dispatch fuel ctx (.inner name_or_cls args kwargs apply_failed_hosts fact_hash) hs
    | .shortFacts sf args =>
        -- facts = get_fact(state, host, short_fact.fact.name, args=args, ...)
        let r := dispatch fuel ctx (.locked (.name sf.fact.name) args Option.none true Option.none) hs
        match r.1 with
        | Except.error err => (Except.error err, r.2)
        | Except.ok facts =>
            -- {host: short_fact.process_data(data) for host, data in facts.items()}
            match facts with
            | .dict items =>
                (Except.ok (.dict (items.map (fun kv => (kv.1, sf.process_data kv.2)))), r.2)
            | _ => (Except.error (PyErr.attributeError "items"), r.2)
    | .inner name_or_cls args kwargs apply_failed_hosts fact_hash =>
        match resolveFactCls ctx.registry name_or_cls with
        | Except.error err => (Except.error err, hs)
        | Except.ok (.short sf) => dispatch fuel ctx (.shortFacts sf args) hs
        | Except.ok (.fact f) =>
            let ignore_errors := ignoreErrors ctx
            let ekw := apply_shell_override f ctx.executor_kwargs
            let cmd := factCommand ctx f args kwargs
            let hs1 : HostState := { hs with commandCount := hs.commandCount + 1 }
            match ctx.transport cmd ekw with
            | Except.error _e =>
                -- the except branch logs and falls through; the next line
                -- reads `combined_output_lines`, which was never assigned
                (Except.error (PyErr.unboundLocal "combined_output_lines"), hs1)
            | Except.ok (status0, combined_output_lines) =>
                let so_se := split_combined_output combined_output_lines
                let stdout := so_se.1
                let stderr := so_se.2
                let data := if status0 && !stdout.isEmpty then f.process stdout else f.default
                let status := status0 || reclassify_status ekw stderr
                let hs2 : HostState :=
                  if !status && !ignore_errors && apply_failed_hosts then
                    { hs1 with failed := true }
                  else hs1
                let hs3 : HostState :=
                  match fact_hash with
                  | Option.some h => { hs2 with facts := dictInsert hs2.facts h data }
                  | Option.none => hs2
                (Except.ok data, hs3)

/-- `get_fact(state, host, name_or_cls, args, kwargs, ensure_hosts,
apply_failed_hosts, fact_hash)`: under the host's fact lock, return the
cached value when the fingerprint is supplied and present, otherwise run
`_get_fact`. -/
def get_fact (fuel : Nat) (ctx : Ctx) (name_or_cls : NameOrCls) (args : Option (List Value))
    (kwargs : Option Kwargs) (apply_failed_hosts : Bool) (fact_hash : Option FactHash)
    (hs : HostState) : Except PyErr Value × HostState :=
  dispatch fuel ctx (.locked name_or_cls args kwargs apply_failed_hosts fact_hash) hs

/-- `_get_fact(...)`: resolve the fact class, dispatch derived facts to
`get_short_facts`, otherwise build and execute the command, classify the
result, update the failed flag and the cache, and return the data. -/
def _get_fact (fuel : Nat) (ctx : Ctx) (name_or_cls : NameOrCls) (args : Option (List Value))
    (kwargs : Option Kwargs) (apply_failed_hosts : Bool) (fact_hash : Option FactHash)
    (hs : HostState) : Except PyErr Value × HostState :=
  dispatch fuel ctx (.inner name_or_cls args kwargs apply_failed_hosts fact_hash) hs

/-- `get_short_facts(state, host, short_fact, args=..., ensure_hosts=...)`:
resolve the wrapped primary fact by name, then map `process_data` over
`facts.items()`. -/
def get_short_facts (fuel : Nat) (ctx : Ctx) (sf : ShortFact) (args : Option (List Value))
    (hs : HostState) : Except PyErr Value × HostState :=
  dispatch fuel ctx (.shortFacts sf args) hs

/-- The collection loop of `get_facts`: `for greenlet in gevent.iwait(...)`,
`results[host] = greenlet.get()`.  Hosts are identified by numeric ids; the
list order stands for one admissible completion order.  `greenlet.get()`
re-raises the exception a greenlet died with, aborting the loop; results of
greenlets that were spawned but never collected do not reach the returned
mapping either way. -/
def get_facts_loop (fuel : Nat) (ctxs : Nat → Ctx) (name_or_cls : NameOrCls)
    (args : Option (List Value)) (kwargs : Option Kwargs) (apply_failed_hosts : Bool)
    (fact_hash : Option FactHash) :
    List Nat → (Nat → HostState) → List (Nat × Value) →
      Except PyErr (List (Nat × Value)) × (Nat → HostState)
  | [], states, acc => (Except.ok acc, states)
  | h :: rest, states, acc =>
      let r := get_fact fuel (ctxs h) name_or_cls args kwargs apply_failed_hosts fact_hash
        (states h)
      let states1 := fun i => if i = h then r.2 else states i
      match r.1 with
      | Except.error err => (Except.error err, states1)
      | Except.ok v =>
          get_facts_loop fuel ctxs name_or_cls args kwargs apply_failed_hosts fact_hash
            rest states1 (acc ++ [(h, v)])

/-- `get_facts(state, *args, **kwargs)`: spawn `get_fact` per active host and
collect one result per host into a host-keyed mapping. -/
def get_facts (fuel : Nat) (hosts : List Nat) (ctxs : Nat → Ctx) (name_or_cls : NameOrCls)
    (args : Option (List Value)) (kwargs : Option Kwargs) (apply_failed_hosts : Bool)
    (fact_hash : Option FactHash) (states : Nat → HostState) :
    Except PyErr (List (Nat × Value)) × (Nat → HostState) :=
  get_facts_loop fuel ctxs name_or_cls args kwargs apply_failed_hosts fact_hash hosts states []

/-- The `FactMeta.__init__` registration step: abstract classes are skipped,
anything else is assigned into the `FACTS` index under its derived
snake_case name (`underscore`, pyinfra.api.util, is outside src; the already
derived name is taken as input). -/
def fact_meta_init (facts : List (String × FactOrShort)) (abstract : Bool) (fact_name : String)
    (cls : FactOrShort) : List (String × FactOrShort) :=
  if abstract then facts else dictInsert facts fact_name cls

/-- `is_fact(name)`. -/
def is_fact (facts : List (String × FactOrShort)) (name : String) : Bool :=
  (dictLookup facts name).isSome

/-- `get_fact_class(name)` (`None` standing for the `KeyError` case). -/
def get_fact_class (facts : List (String × FactOrShort)) (name : String) : Option FactOrShort :=
  dictLookup facts name

/-- `get_fact_names()`. -/
def get_fact_names (facts : List (String × FactOrShort)) : List String :=
  facts.map (fun kv => kv.1)

/-- The observable payload of a registered fact class (its `default()`), used
to tell two registrations apart. -/
def factOrShortDefault : FactOrShort → Value
  | .fact f => f.default
  | .short sf => sf.fact.default

/-- Modelled from the spec: `get_executor_kwarg_keys()` (pyinfra.api.arguments,
not in src) returns the allow-list of execution-affecting argument keys
(timeout, privilege-escalation users, shell override, output-printing
flags). -/
def get_executor_kwarg_keys : List String :=
  ["timeout", "sudo_user", "su_user", "shell_executable", "print_output", "print_input"]

/-- `_get_executor_kwargs(state, host)` as called by the fingerprint helpers:
with no overrides the override dict starts empty, is updated with every
current-op global kwarg, and is filtered down to the executor keys (the
invalid-override error branch is unreachable on this no-override path). -/
def _get_executor_kwargs (current_op_global_kwargs : Option Kwargs) : Kwargs :=
  (current_op_global_kwargs.getD []).filter (fun kv => get_executor_kwarg_keys.contains kv.1)

/-- The tuple hashed by `make_hash((name, kwargs, _get_executor_kwargs(state,
host)))`; `make_hash` is modelled as the identity on this tuple (see
`FactHash`).  The positional `args` parameter is not part of it. -/
def make_hash_input (name : String) (kwargs : Option Kwargs) (ekw : Kwargs) : FactHash :=
  (name, kwargs, ekw)

/-- `get_host_fact(state, host, name, args, kwargs)`. -/
def get_host_fact (fuel : Nat) (ctx : Ctx) (name : String) (args : Option (List Value))
    (kwargs : Option Kwargs) (hs : HostState) : Except PyErr Value × HostState :=
  let fact_hash := make_hash_input name kwargs (_get_executor_kwargs ctx.current_op_global_kwargs)
  get_fact fuel ctx (.name name) args kwargs true (Option.some fact_hash) hs

/-- `create_host_fact(state, host, name, data, args, kwargs)`: write `data`
directly into the host cache under the computed fingerprint. -/
def create_host_fact (ctx : Ctx) (name : String) (data : Value) (args : Option (List Value))
    (kwargs : Option Kwargs) (hs : HostState) : HostState :=
  let fact_hash := make_hash_input name kwargs (_get_executor_kwargs ctx.current_op_global_kwargs)
  { hs with facts := dictInsert hs.facts fact_hash data }

/-- `delete_host_fact(state, host, name, args, kwargs)`: `host.facts.pop(
fact_hash, None)`. -/
def delete_host_fact (ctx : Ctx) (name : String) (args : Option (List Value))
    (kwargs : Option Kwargs) (hs : HostState) : HostState :=
  let fact_hash := make_hash_input name kwargs (_get_executor_kwargs ctx.current_op_global_kwargs)
  { hs with facts := dictRemove hs.facts fact_hash }

/-! ### POSIX shell semantics of the `requires_command` wrapper

`_get_fact` hands the `StringCommand` token list to the transport as one
shell command line.  To state what that command line *does*, a small
evaluator gives semantics to the fragment of shell it uses: simple commands
(`command -v X >/dev/null` — exit status reports whether `X` resolves, output
discarded by the redirect; any other word — the primary command), pipeline
negation with `!`, and a single `||` or-list with short-circuiting. -/

/-- The remote-side behavior a shell evaluation is parameterised over: which
command names `command -v` finds, and the exit status / combined output of
the primary command. -/
structure ShellEnv where
  cmdExists : String → Bool
  runPrim : String → Bool × List (Bool × String)

/-- Evaluate a simple command. -/
def evalSimpleCmd (env : ShellEnv) : List String → Bool × List (Bool × String)
  | ["command", "-v", x, ">/dev/null"] => (env.cmdExists x, [])
  | [c] => env.runPrim c
  | _ => (false, [])

/-- Evaluate a pipeline: an optional leading `!` negates the exit status of
the simple command (its output is unchanged). -/
def evalPipeline (env : ShellEnv) : List String → Bool × List (Bool × String)
  | "!" :: rest =>
      let r := evalSimpleCmd env rest
      (!r.1, r.2)
  | toks => evalSimpleCmd env toks

/-- Split a token list at the first `||`, if any. -/
def splitAtOr : List String → List String × Option (List String)
  | [] => ([], Option.none)
  | t :: ts =>
      if t = "||" then ([], Option.some ts)
      else
        let r := splitAtOr ts
        (t :: r.1, r.2)

/-- Evaluate a (possibly or-listed) command line: run the left pipeline; when
it fails, run the right pipeline as well, combining the outputs in order. -/
def eval_shell (env : ShellEnv) (toks : List String) : Bool × List (Bool × String) :=
  let sp := splitAtOr toks
  match sp.2 with
  | Option.none => evalPipeline env sp.1
  | Option.some right =>
      let l := evalPipeline env sp.1
      if l.1 then l
      else
        let r := evalPipeline env right
        (r.1, l.2 ++ r.2)

/-! ### Concrete fixtures

Concrete facts, environments and hosts used to evaluate the model at
explicit inputs. -/

/-- Resolved execution arguments with no privilege escalation. -/
def ekwDefault : ExecutorKwargs :=
  { timeout := 10, sudo_user := Option.none, su_user := Option.none,
    shell_executable := Option.none }

/-- A plain fact running a literal command and parsing lines into a list. -/
def factSimple : Fact :=
  { name := "os", command := .lit "uname", requires_command := .noneAttr,
    shell_executable := Option.none, default := Value.list [],
    process := fun ls => Value.list (ls.map Value.str) }

/-- A fresh host: empty cache, not failed, no commands run. -/
def hs0 : HostState := { facts := [], failed := false, commandCount := 0 }

/-- A host context whose transport succeeds with one stdout line. -/
def ctxOk : Ctx :=
  { registry := [("os", .fact factSimple)],
    transport := fun _ _ => Except.ok (true, [(true, "Linux")]),
    current_op_global_kwargs := Option.none,
    config_ignore_errors := false,
    executor_kwargs := ekwDefault,
    render_args := fun _ k => k }

/-- A host context whose transport raises `socket.timeout`. -/
def ctxTimeout : Ctx :=
  { ctxOk with transport := fun _ _ => Except.error TransportErr.timeout }

/-- A primary fact whose data is the list of output lines (`["a","b","c"]`
under `ctxShort`). -/
def primaryList : Fact :=
  { name := "items_fact", command := .lit "cat items", requires_command := .noneAttr,
    shell_executable := Option.none, default := Value.list [],
    process := fun ls => Value.list (ls.map Value.str) }

/-- A derived fact over `primaryList` whose transform is `len(x)`. -/
def shortLen : ShortFact :=
  { fact := primaryList,
    process_data := fun v =>
      match v with
      | .list l => Value.int l.length
      | _ => Value.none }

/-- A host context for the derived fact: the primary fact's command prints
`a`, `b`, `c`. -/
def ctxShort : Ctx :=
  { ctxOk with
    registry := [("items_fact", .fact primaryList)],
    transport := fun _ _ => Except.ok (true, [(true, "a"), (true, "b"), (true, "c")]) }

/-- A host context whose command fails with `sudo: unknown user: alice` on
stderr while `sudo_user='alice'` is requested. -/
def ctxSudoMissingUser : Ctx :=
  { ctxOk with
    transport := fun _ _ => Except.ok (false, [(false, "sudo: unknown user: alice")]),
    executor_kwargs := { ekwDefault with sudo_user := Option.some "alice" } }

/-- A host context whose command fails with unrelated stderr. -/
def ctxPermissionDenied : Ctx :=
  { ctxOk with
    transport := fun _ _ => Except.ok (false, [(false, "permission denied")]) }

/-- A host context whose command succeeds with no output at all. -/
def ctxEmptyStdout : Ctx :=
  { ctxOk with transport := fun _ _ => Except.ok (true, []) }

/-- A fact guarded by a `requires_command` probe (`pip`). -/
def pipFact : Fact :=
  { name := "pip_packages", command := .lit "pip list", requires_command := .lit "pip",
    shell_executable := Option.none, default := Value.list [],
    process := fun ls => Value.list (ls.map Value.str) }

/-- A remote shell on which every probed command exists and the primary
command succeeds with the output line `PRIMARY`. -/
def envProbeExists : ShellEnv :=
  { cmdExists := fun _ => true, runPrim := fun _ => (true, [(true, "PRIMARY")]) }

/-- A two-host inventory in which host 0's transport works and host 1's
raises `socket.timeout`. -/
def c4ctxs : Nat → Ctx := fun i => if i = 0 then ctxOk else ctxTimeout

/-- First registration for the duplicate-identifier scenario. -/
def factDisk1 : Fact :=
  { name := "disk", command := .lit "df", requires_command := .noneAttr,
    shell_executable := Option.none, default := Value.int 1,
    process := fun _ => Value.none }

/-- Second registration under the same identifier, distinguishable by its
default value. -/
def factDisk2 : Fact :=
  { name := "disk", command := .lit "df -h", requires_command := .noneAttr,
    shell_executable := Option.none, default := Value.int 2,
    process := fun _ => Value.none }

/-! ### Helper lemmas -/

/-- Assigning a key and looking it up returns the assigned value. -/
theorem dictLookup_dictInsert {κ : Type} {α : Type} [DecidableEq κ]
    (d : List (κ × α)) (k : κ) (v : α) :
    dictLookup (dictInsert d k v) k = Option.some v := by
  induction d with
  | nil => simp [dictInsert, dictLookup]
  | cons kv rest ih =>
      by_cases h : kv.1 = k
      · simp [dictInsert, dictLookup, h]
      · simp [dictInsert, dictLookup, h, ih]

/-- After removing a key it can no longer be looked up. -/
theorem dictLookup_dictRemove {κ : Type} {α : Type} [DecidableEq κ]
    (d : List (κ × α)) (k : κ) :
    dictLookup (dictRemove d k) k = Option.none := by
  induction d with
  | nil => simp [dictRemove, dictLookup]
  | cons kv rest ih =>
      by_cases h : kv.1 = k
      · simpa [dictRemove, List.filter, h] using ih
      · simpa [dictRemove, dictLookup, List.filter, h] using ih

/-- The shell override only touches `shell_executable`. -/
theorem apply_shell_override_sudo_user (f : Fact) (e : ExecutorKwargs) :
    (apply_shell_override f e).sudo_user = e.sudo_user := by
  unfold apply_shell_override; split <;> rfl

/-- The shell override only touches `shell_executable`. -/
theorem apply_shell_override_su_user (f : Fact) (e : ExecutorKwargs) :
    (apply_shell_override f e).su_user = e.su_user := by
  unfold apply_shell_override; split <;> rfl

/-- Reclassification only reads the privilege-escalation users, so the shell
override does not change its outcome. -/
theorem reclassify_status_apply_shell_override (f : Fact) (e : ExecutorKwargs)
    (stderr : List String) :
    reclassify_status (apply_shell_override f e) stderr = reclassify_status e stderr := by
  cases stderr <;>
    simp [reclassify_status, apply_shell_override_sudo_user, apply_shell_override_su_user]

/-! ### Claim theorems -/

/-- C1 (code bug): when the host's transport raises a connection-level error
(here: `socket.timeout`) during the fact command, the `except` handler in
`_get_fact` catches and logs it, but the very next source line reads the
local `combined_output_lines`, which is only assigned inside the `try`
block — so the call propagates an `UnboundLocalError` to the caller instead
of producing the failed-execution result (status false, empty output) the
claim describes. -/
theorem transport_error_propagates_unbound_local :
    _get_fact 1 ctxTimeout (.cls (.fact factSimple)) Option.none Option.none true
        Option.none hs0
      = (Except.error (PyErr.unboundLocal "combined_output_lines"),
         { facts := [], failed := false, commandCount := 1 }) := rfl

/-- C2 (code bug): resolving a derived fact whose transform is `len(x)` over
a primary fact returning `["a","b","c"]` does not yield `3`: `get_short_facts`
receives the single-host data from `get_fact` (here a list) and calls
`.items()` on it, raising `AttributeError`.  The transform itself would map
the primary data to `3`, as the claim expects. -/
theorem derived_fact_resolution_raises_attribute_error :
    get_fact 5 ctxShort (.cls (.short shortLen)) Option.none Option.none true
        Option.none hs0
      = (Except.error (PyErr.attributeError "items"),
         { facts := [], failed := false, commandCount := 1 }) ∧
    shortLen.process_data (Value.list [Value.str "a", Value.str "b", Value.str "c"])
      = Value.int 3 :=
  ⟨rfl, rfl⟩

/-- C3 (counterexample): on a remote shell where the probed command exists,
the wrapped command `! command -v pip >/dev/null || pip list` runs the
primary command — it is not the no-op success with no output the claim
states for the probe-exists case. -/
theorem probe_exists_runs_primary_command :
    eval_shell envProbeExists (wrapRequires "pip" "pip list")
        = envProbeExists.runPrim "pip list" ∧
    envProbeExists.cmdExists "pip" = true ∧
    eval_shell envProbeExists (wrapRequires "pip" "pip list") ≠ (true, []) := by
  refine ⟨rfl, rfl, ?_⟩
  intro h
  simp [eval_shell, wrapRequires, splitAtOr, evalPipeline, evalSimpleCmd, envProbeExists] at h

/-- C3 (amended): when the `requiresCommand` probe renders to a non-empty
command, `_get_fact` wraps the primary command so that it runs exactly when
the probe finds its target: probed command absent means the execution
succeeds as a no-op with no output, probed command present means the primary
command is executed. -/
theorem requires_command_wrapper_semantics (env : ShellEnv) (f : Fact)
    (host_kwargs : Kwargs) (rc : String)
    (hreq : _make_command f.requires_command host_kwargs = Option.some rc)
    (hne : rc.isEmpty = false) (hnotor : rc ≠ "||")
    (hnotbang : (_make_command f.command host_kwargs).getD "" ≠ "!") :
    buildCmd f host_kwargs
        = Cmd.tokens (wrapRequires rc ((_make_command f.command host_kwargs).getD "")) ∧
    eval_shell env (wrapRequires rc ((_make_command f.command host_kwargs).getD ""))
      = if env.cmdExists rc then env.runPrim ((_make_command f.command host_kwargs).getD "")
        else (true, []) := by
  constructor
  · unfold buildCmd
    rw [hreq]
    simp [hne]
  · cases hex : env.cmdExists rc <;>
      simp [eval_shell, wrapRequires, splitAtOr, evalPipeline, evalSimpleCmd, hnotor,
        hnotbang, hex]

/-- Witness for the amended C3 theorem at the `pip`-guarded fact. -/
theorem requires_command_wrapper_semantics_witness :
    _make_command pipFact.requires_command [] = Option.some "pip" ∧
    ("pip").isEmpty = false ∧
    ("pip" : String) ≠ "||" ∧
    (_make_command pipFact.command []).getD "" ≠ "!" ∧
    (buildCmd pipFact []
        = Cmd.tokens (wrapRequires "pip" ((_make_command pipFact.command []).getD "")) ∧
     eval_shell envProbeExists (wrapRequires "pip" ((_make_command pipFact.command []).getD ""))
       = if envProbeExists.cmdExists "pip" then
           envProbeExists.runPrim ((_make_command pipFact.command []).getD "")
         else (true, [])) :=
  ⟨rfl, rfl, by decide, by decide,
   requires_command_wrapper_semantics envProbeExists pipFact [] "pip" rfl rfl
     (by decide) (by decide)⟩

/-- C4 (code bug): with two active hosts of which host 1's transport raises a
timeout, `get_facts` does not return a two-entry mapping with a default value
for host 1 — `greenlet.get()` re-raises the `UnboundLocalError` from
`_get_fact` (see C1) and the whole batch aborts with no mapping at all.  With
no transport errors the same call returns exactly one entry per host. -/
theorem get_facts_aborts_when_any_transport_errors :
    (get_facts 2 [0, 1] c4ctxs (.cls (.fact factSimple)) Option.none Option.none true
        Option.none (fun _ => hs0)).1
      = Except.error (PyErr.unboundLocal "combined_output_lines") ∧
    (get_facts 2 [0, 1] (fun _ => ctxOk) (.cls (.fact factSimple)) Option.none Option.none
        true Option.none (fun _ => hs0)).1
      = Except.ok [(0, Value.list [Value.str "Linux"]), (1, Value.list [Value.str "Linux"])] :=
  ⟨rfl, rfl⟩

/-- C5: with a supplied fingerprint that is not yet cached, the first
`get_fact` call executes the command exactly once and stores the computed
data in the host cache under the fingerprint, and a second call returns that
identical cached value with the state unchanged — in particular without
invoking the transport again. -/
theorem get_fact_fingerprint_caches_single_execution (fuel1 fuel2 : Nat) (ctx : Ctx)
    (f : Fact) (args : Option (List Value)) (kwargs : Option Kwargs) (apfh : Bool)
    (fh : FactHash) (hs : HostState) (st : Bool) (comb : List (Bool × String))
    (hmiss : dictLookup hs.facts fh = Option.none)
    (htr : ctx.transport (factCommand ctx f args kwargs)
        (apply_shell_override f ctx.executor_kwargs) = Except.ok (st, comb)) :
    ∃ v : Value,
      (get_fact (fuel1 + 2) ctx (.cls (.fact f)) args kwargs apfh (Option.some fh) hs).1
          = Except.ok v ∧
      dictLookup (get_fact (fuel1 + 2) ctx (.cls (.fact f)) args kwargs apfh
          (Option.some fh) hs).2.facts fh = Option.some v ∧
      (get_fact (fuel1 + 2) ctx (.cls (.fact f)) args kwargs apfh
          (Option.some fh) hs).2.commandCount = hs.commandCount + 1 ∧
      get_fact (fuel2 + 1) ctx (.cls (.fact f)) args kwargs apfh (Option.some fh)
          (get_fact (fuel1 + 2) ctx (.cls (.fact f)) args kwargs apfh (Option.some fh) hs).2
        = (Except.ok v,
           (get_fact (fuel1 + 2) ctx (.cls (.fact f)) args kwargs apfh
             (Option.some fh) hs).2) := by
  have h1 : get_fact (fuel1 + 2) ctx (.cls (.fact f)) args kwargs apfh (Option.some fh) hs
      = _get_fact (fuel1 + 1) ctx (.cls (.fact f)) args kwargs apfh (Option.some fh) hs := by
    unfold get_fact _get_fact
    simp only [dispatch]
    rw [hmiss]
  refine ⟨if st && !(split_combined_output comb).1.isEmpty
      then f.process (split_combined_output comb).1 else f.default, ?_, ?_, ?_, ?_⟩
  · rw [h1]; unfold _get_fact
    simp only [dispatch, resolveFactCls]
    rw [htr]
  · rw [h1]; unfold _get_fact
    simp only [dispatch, resolveFactCls]
    rw [htr]
    simp only []
    split <;> simp [dictLookup_dictInsert]
  · rw [h1]; unfold _get_fact
    simp only [dispatch, resolveFactCls]
    rw [htr]
    simp only []
    split <;> simp
  · rw [h1]
    have h2 : dictLookup (_get_fact (fuel1 + 1) ctx (.cls (.fact f)) args kwargs apfh
        (Option.some fh) hs).2.facts fh
        = Option.some (if st && !(split_combined_output comb).1.isEmpty
            then f.process (split_combined_output comb).1 else f.default) := by
      unfold _get_fact
      simp only [dispatch, resolveFactCls]
      rw [htr]
      simp only []
      split <;> simp [dictLookup_dictInsert]
    unfold get_fact
    simp only [dispatch]
    rw [h2]

/-- Witness for C5 at a concrete host, fact and fingerprint. -/
theorem get_fact_fingerprint_caches_single_execution_witness :
    dictLookup hs0.facts ("os", Option.none, ([] : Kwargs)) = Option.none ∧
    ctxOk.transport (factCommand ctxOk factSimple Option.none Option.none)
        (apply_shell_override factSimple ctxOk.executor_kwargs)
      = Except.ok (true, [(true, "Linux")]) ∧
    (∃ v : Value,
      (get_fact 2 ctxOk (.cls (.fact factSimple)) Option.none Option.none true
          (Option.some ("os", Option.none, ([] : Kwargs))) hs0).1 = Except.ok v ∧
      dictLookup (get_fact 2 ctxOk (.cls (.fact factSimple)) Option.none Option.none true
          (Option.some ("os", Option.none, ([] : Kwargs))) hs0).2.facts
          ("os", Option.none, ([] : Kwargs)) = Option.some v ∧
      (get_fact 2 ctxOk (.cls (.fact factSimple)) Option.none Option.none true
          (Option.some ("os", Option.none, ([] : Kwargs))) hs0).2.commandCount
          = hs0.commandCount + 1 ∧
      get_fact 1 ctxOk (.cls (.fact factSimple)) Option.none Option.none true
          (Option.some ("os", Option.none, ([] : Kwargs)))
          (get_fact 2 ctxOk (.cls (.fact factSimple)) Option.none Option.none true
            (Option.some ("os", Option.none, ([] : Kwargs))) hs0).2
        = (Except.ok v,
           (get_fact 2 ctxOk (.cls (.fact factSimple)) Option.none Option.none true
             (Option.some ("os", Option.none, ([] : Kwargs))) hs0).2)) :=
  ⟨rfl, rfl,
   get_fact_fingerprint_caches_single_execution 0 0 ctxOk factSimple Option.none
     Option.none true ("os", Option.none, []) hs0 true [(true, "Linux")] rfl rfl⟩

/-- C6: when the command fails and the first stderr line matches the
user-does-not-exist pattern of a privilege-escalation mechanism whose target
user was actually requested, `_get_fact` reclassifies the result as success:
it returns the fact's default value and leaves the host's failed flag
unchanged. -/
theorem privilege_user_absent_reclassified_success (fuel : Nat) (ctx : Ctx) (f : Fact)
    (args : Option (List Value)) (kwargs : Option Kwargs) (apfh : Bool)
    (fh : Option FactHash) (hs : HostState) (comb : List (Bool × String))
    (first_line : String) (rest : List String)
    (htr : ctx.transport (factCommand ctx f args kwargs)
        (apply_shell_override f ctx.executor_kwargs) = Except.ok (false, comb))
    (hstderr : (split_combined_output comb).2 = first_line :: rest)
    (hmatch : (truthyOptStr ctx.executor_kwargs.sudo_user
          && sudo_unknown_user_match first_line
        || truthyOptStr ctx.executor_kwargs.su_user
          && su_regexes_match first_line) = true) :
    (_get_fact (fuel + 1) ctx (.cls (.fact f)) args kwargs apfh fh hs).1
        = Except.ok f.default ∧
    (_get_fact (fuel + 1) ctx (.cls (.fact f)) args kwargs apfh fh hs).2.failed
        = hs.failed := by
  have hrc : reclassify_status (apply_shell_override f ctx.executor_kwargs)
      ((split_combined_output comb).2) = true := by
    rw [reclassify_status_apply_shell_override, hstderr]
    simpa [reclassify_status] using hmatch
  constructor <;> (
    unfold _get_fact
    simp only [dispatch, resolveFactCls]
    rw [htr]
    simp [hrc]
    try (cases fh <;> simp))

/-- Witness for C6: stderr first line exactly `sudo: unknown user: alice`
with `sudo_user='alice'` requested. -/
theorem privilege_user_absent_reclassified_success_witness :
    ctxSudoMissingUser.transport
        (factCommand ctxSudoMissingUser factSimple Option.none Option.none)
        (apply_shell_override factSimple ctxSudoMissingUser.executor_kwargs)
      = Except.ok (false, [(false, "sudo: unknown user: alice")]) ∧
    (split_combined_output [(false, "sudo: unknown user: alice")]).2
      = "sudo: unknown user: alice" :: [] ∧
    (truthyOptStr ctxSudoMissingUser.executor_kwargs.sudo_user
        && sudo_unknown_user_match "sudo: unknown user: alice"
      || truthyOptStr ctxSudoMissingUser.executor_kwargs.su_user
        && su_regexes_match "sudo: unknown user: alice") = true ∧
    ((_get_fact 1 ctxSudoMissingUser (.cls (.fact factSimple)) Option.none Option.none true
        Option.none hs0).1 = Except.ok factSimple.default ∧
     (_get_fact 1 ctxSudoMissingUser (.cls (.fact factSimple)) Option.none Option.none true
        Option.none hs0).2.failed = hs0.failed) :=
  ⟨rfl, rfl, rfl,
   privilege_user_absent_reclassified_success 0 ctxSudoMissingUser factSimple Option.none
     Option.none true Option.none hs0 [(false, "sudo: unknown user: alice")]
     "sudo: unknown user: alice" [] rfl rfl rfl⟩

/-- C7 (counterexample): registering a second fact class under an identifier
already present in `FACTS` does not fail — `FactMeta.__init__` assigns
unconditionally, so the registry afterwards holds the second class (default
value 2), not the first (default value 1), and no error is raised. -/
theorem duplicate_registration_silently_replaces :
    (dictLookup (fact_meta_init (fact_meta_init [] false "disk" (.fact factDisk1))
          false "disk" (.fact factDisk2)) "disk").map factOrShortDefault
        = Option.some (Value.int 2) ∧
    (dictLookup (fact_meta_init (fact_meta_init [] false "disk" (.fact factDisk1))
          false "disk" (.fact factDisk2)) "disk").map factOrShortDefault
        ≠ Option.some (Value.int 1) := by
  constructor
  · rfl
  · intro h
    simp [fact_meta_init, dictInsert, dictLookup, factOrShortDefault, factDisk2] at h

/-- C7 (amended): the registry keeps at most one definition per identifier,
but re-registration under an existing identifier silently replaces the
previous entry (last registration wins) instead of failing. -/
theorem fact_registration_last_wins (facts : List (String × FactOrShort)) (n : String)
    (c : FactOrShort) :
    dictLookup (fact_meta_init facts false n c) n = Option.some c := by
  unfold fact_meta_init
  simp [dictLookup_dictInsert]

/-- C8: on a true failure (failed status, no benign reclassification) the
returned data is the fact's default value and, starting from a non-failed
host, the host ends up failed exactly when ignore-errors is not in effect
(host-scoped override falling back to the global default) and
`apply_failed_hosts` is true. -/
theorem true_failure_defaults_and_marks_host (fuel : Nat) (ctx : Ctx) (f : Fact)
    (args : Option (List Value)) (kwargs : Option Kwargs) (apfh : Bool)
    (fh : Option FactHash) (hs : HostState) (comb : List (Bool × String))
    (htr : ctx.transport (factCommand ctx f args kwargs)
        (apply_shell_override f ctx.executor_kwargs) = Except.ok (false, comb))
    (hnore : reclassify_status ctx.executor_kwargs (split_combined_output comb).2 = false)
    (hfail : hs.failed = false) :
    (_get_fact (fuel + 1) ctx (.cls (.fact f)) args kwargs apfh fh hs).1
        = Except.ok f.default ∧
    (_get_fact (fuel + 1) ctx (.cls (.fact f)) args kwargs apfh fh hs).2.failed
        = (!ignoreErrors ctx && apfh) := by
  have hnore2 : reclassify_status (apply_shell_override f ctx.executor_kwargs)
      (split_combined_output comb).2 = false := by
    rw [reclassify_status_apply_shell_override]; exact hnore
  constructor <;> (
    unfold _get_fact
    simp only [dispatch, resolveFactCls]
    rw [htr]
    simp [hnore2, hfail]
    try (cases fh <;> by_cases hig : ignoreErrors ctx <;> by_cases hap : apfh <;>
      simp [hig, hap, hfail]))

/-- Witness for C8: a non-zero-exit command with unrelated stderr
(`permission denied`), no ignore-errors override and `apply_failed_hosts`
true, so the host is marked failed. -/
theorem true_failure_defaults_and_marks_host_witness :
    ctxPermissionDenied.transport
        (factCommand ctxPermissionDenied factSimple Option.none Option.none)
        (apply_shell_override factSimple ctxPermissionDenied.executor_kwargs)
      = Except.ok (false, [(false, "permission denied")]) ∧
    reclassify_status ctxPermissionDenied.executor_kwargs
        (split_combined_output [(false, "permission denied")]).2 = false ∧
    hs0.failed = false ∧
    ((_get_fact 1 ctxPermissionDenied (.cls (.fact factSimple)) Option.none Option.none true
        Option.none hs0).1 = Except.ok factSimple.default ∧
     (_get_fact 1 ctxPermissionDenied (.cls (.fact factSimple)) Option.none Option.none true
        Option.none hs0).2.failed = (!ignoreErrors ctxPermissionDenied && true)) :=
  ⟨rfl, rfl, rfl,
   true_failure_defaults_and_marks_host 0 ctxPermissionDenied factSimple Option.none
     Option.none true Option.none hs0 [(false, "permission denied")] rfl rfl rfl⟩

/-- C9: a successful execution with empty stdout yields the fact's declared
default value, and the result does not depend on the fact's `process`
parser — replacing the parser by any other function leaves the whole
resolution outcome unchanged. -/
theorem empty_stdout_yields_default_without_parse (fuel : Nat) (ctx : Ctx) (f : Fact)
    (args : Option (List Value)) (kwargs : Option Kwargs) (apfh : Bool)
    (fh : Option FactHash) (hs : HostState) (comb : List (Bool × String))
    (htr : ctx.transport (factCommand ctx f args kwargs)
        (apply_shell_override f ctx.executor_kwargs) = Except.ok (true, comb))
    (hout : (split_combined_output comb).1 = []) :
    (_get_fact (fuel + 1) ctx (.cls (.fact f)) args kwargs apfh fh hs).1
        = Except.ok f.default ∧
    ∀ p : List String → Value,
      _get_fact (fuel + 1) ctx (.cls (.fact { f with process := p })) args kwargs apfh fh hs
        = _get_fact (fuel + 1) ctx (.cls (.fact f)) args kwargs apfh fh hs := by
  constructor
  · unfold _get_fact
    simp only [dispatch, resolveFactCls]
    rw [htr]
    simp [hout]
  · intro p
    have htr2 : ctx.transport (factCommand ctx { f with process := p } args kwargs)
        (apply_shell_override { f with process := p } ctx.executor_kwargs)
          = Except.ok (true, comb) := htr
    unfold _get_fact
    simp only [dispatch, resolveFactCls]
    rw [htr, htr2]
    simp [hout]

/-- Witness for C9: a command succeeding with no output at all. -/
theorem empty_stdout_yields_default_without_parse_witness :
    ctxEmptyStdout.transport
        (factCommand ctxEmptyStdout factSimple Option.none Option.none)
        (apply_shell_override factSimple ctxEmptyStdout.executor_kwargs)
      = Except.ok (true, []) ∧
    (split_combined_output []).1 = [] ∧
    ((_get_fact 1 ctxEmptyStdout (.cls (.fact factSimple)) Option.none Option.none true
        Option.none hs0).1 = Except.ok factSimple.default ∧
     ∀ p : List String → Value,
       _get_fact 1 ctxEmptyStdout (.cls (.fact { factSimple with process := p })) Option.none
           Option.none true Option.none hs0
         = _get_fact 1 ctxEmptyStdout (.cls (.fact factSimple)) Option.none Option.none true
             Option.none hs0) :=
  ⟨rfl, rfl,
   empty_stdout_yields_default_without_parse 0 ctxEmptyStdout factSimple Option.none
     Option.none true Option.none hs0 [] rfl rfl⟩

/-- C10: the fingerprints computed by `get_host_fact`, `create_host_fact` and
`delete_host_fact` do not involve the positional `args` parameter: creation
with one args tuple equals creation with any other, data injected with one
args tuple is returned by `get_host_fact` under any other args tuple with the
state (including the command counter) unchanged, and `delete_host_fact` with
a third args tuple evicts that same cache entry. -/
theorem host_fact_fingerprint_ignores_positional_args (fuel : Nat) (ctx : Ctx)
    (name : String) (data : Value) (args1 args2 args3 : Option (List Value))
    (kwargs : Option Kwargs) (hs : HostState) :
    create_host_fact ctx name data args2 kwargs hs
        = create_host_fact ctx name data args1 kwargs hs ∧
    get_host_fact (fuel + 1) ctx name args2 kwargs
        (create_host_fact ctx name data args1 kwargs hs)
      = (Except.ok data, create_host_fact ctx name data args1 kwargs hs) ∧
    dictLookup (delete_host_fact ctx name args3 kwargs
          (create_host_fact ctx name data args1 kwargs hs)).facts
        (make_hash_input name kwargs (_get_executor_kwargs ctx.current_op_global_kwargs))
        = Option.none ∧
    delete_host_fact ctx name args1 kwargs hs = delete_host_fact ctx name args2 kwargs hs := by
  refine ⟨rfl, ?_, ?_, rfl⟩
  · unfold get_host_fact get_fact
    simp only [dispatch]
    rw [show dictLookup (create_host_fact ctx name data args1 kwargs hs).facts
        (make_hash_input name kwargs (_get_executor_kwargs ctx.current_op_global_kwargs))
        = Option.some data from by
      unfold create_host_fact
      simp [dictLookup_dictInsert]]
  · unfold delete_host_fact
    simp [dictLookup_dictRemove]

end PyinfraFacts
